import Mathlib

/-!
Shallow embedding of the Atlas photogrammetry service's job-orchestration core
(`src/api/main.py`, `src/worker/tasks.py`, `src/worker/pipeline/export.py`).

Modelling conventions:
- JSON status records are association lists `List (String × JVal)` with the
  Python `dict.update` semantics (replace-in-place, append new keys).
- The flat on-disk status directory is a `StatusStore` association list keyed
  by job id; workspace directories, `.glb` artifacts and `.gltf` fallback
  files are sets of job ids (membership = the path exists on disk).
- Timestamps (`datetime.utcnow().isoformat()`) are modelled by a natural
  clock threaded through the system state and incremented at each write.
- External pipeline tools (SAM, OpenMVG, OpenMVS, post-processing, trimesh)
  are black boxes per the code's stage contract: each stage's behaviour on a
  given run is an environment field (`none` = the call returns, `some e` =
  the call raises an exception rendered as the string `e`).
- File I/O of the two status writers is additionally recorded as an explicit
  list of primitive file operations, to reason about atomic-replace.
-/

set_option maxHeartbeats 1000000

namespace Atlas

/-- QA metrics dict built by `compute_qa_metrics` in
`src/worker/pipeline/export.py` (defaults filled first, then overridden).
`bounding_box` is abstracted to a presence flag; numeric float rounding of
`file_size_mb` is abstracted to an integer. -/
structure QaMetrics where
  file_size_mb : Int
  triangle_count : Int
  vertex_count : Int
  texture_size : Option (Int × Int)
  bounding_box_present : Bool
  estimated_quality : String
  deriving DecidableEq, Repr

/-- A JSON value as stored in a status record. Parsed `options` documents are
opaque to the core and modelled by the raw text they came from. -/
inductive JVal where
  | nul
  | s (v : String)
  | n (v : Int)
  | t (v : Nat)
  | metricsV (m : QaMetrics)
  deriving DecidableEq, Repr

/-- A persisted status record: a JSON object with Python dict semantics. -/
abbrev Record := List (String × JVal)

/-- `dict[k]` lookup. -/
def getField : Record → String → Option JVal
  | [], _ => none
  | (k', v) :: r, k => if k' = k then some v else getField r k

/-- `dict[k] = v`: replace in place if the key exists, else append. -/
def setField : Record → String → JVal → Record
  | [], k, v => [(k, v)]
  | (k', v') :: r, k, v => if k' = k then (k, v) :: r else (k', v') :: setField r k v

/-- `dict.update(us)`, applied left to right. -/
def setFields (r : Record) (us : List (String × JVal)) : Record :=
  us.foldl (fun acc kv => setField acc kv.1 kv.2) r

/-- `status_data.get("status", "unknown")`-style read of the status field. -/
def statusOf (r : Record) : String :=
  match getField r "status" with
  | some (JVal.s v) => v
  | _ => "unknown"

/-- The flat `STORAGE_ROOT/status/` directory: job id ↦ record. -/
abbrev StatusStore := List (String × Record)

def lookupStore : StatusStore → String → Option Record
  | [], _ => none
  | (j, r) :: rest, job_id => if j = job_id then some r else lookupStore rest job_id

/-- Writing `status/<job_id>.json`: replace the record if present, else add. -/
def insertStore : StatusStore → String → Record → StatusStore
  | [], job_id, r => [(job_id, r)]
  | (j, r') :: rest, job_id, r =>
    if j = job_id then (job_id, r) :: rest else (j, r') :: insertStore rest job_id r

/-- `os.remove(status_file)` (applied only when the file exists). -/
def removeStore (store : StatusStore) (job_id : String) : StatusStore :=
  store.filter (fun e => e.1 != job_id)

/-- Path of a job's status file. -/
def statusPath (job_id : String) : String :=
  "STORAGE_ROOT/status/" ++ job_id ++ ".json"

/-- Primitive file operations performed by a status-store write. -/
inductive FileOp where
  | readF (path : String)
  | mkdirs (path : String)
  | writeF (path : String)
  | renameF (src dst : String)
  deriving DecidableEq, Repr

/-- An operation list realises atomic replacement of `path` when no direct
write ever targets `path` and the final content arrives by a rename. -/
def usesAtomicReplace (ops : List FileOp) (path : String) : Bool :=
  (ops.all fun op => match op with
    | FileOp.writeF p => p != path
    | _ => true) &&
  (ops.any fun op => match op with
    | FileOp.renameF _ dst => dst == path
    | _ => false)

/-- `save_job_status` from `src/api/main.py` (lines 60–65): dumps
`status_data` wholesale over `status/<job_id>.json`. -/
def save_job_status (store : StatusStore) (job_id : String) (status_data : Record) :
    StatusStore :=
  insertStore store job_id status_data

/-- The file operations `save_job_status` performs: `os.makedirs` on the
status directory, then `open(status_file, "w")` + `json.dump`. -/
def save_job_status_ops (job_id : String) : List FileOp :=
  [FileOp.mkdirs "STORAGE_ROOT/status", FileOp.writeF (statusPath job_id)]

/-- `update_job_status` from `src/worker/tasks.py` (lines 52–86): read the
existing record (or start from `{}`), `dict.update` with the new fields plus
`updated_at`, then dump back over the same path. -/
def update_job_status (store : StatusStore) (job_id status : String) (progress : Int)
    (message : String) (now : Nat) (kwargs : List (String × JVal)) : StatusStore :=
  let status_data := (lookupStore store job_id).getD []
  let status_data := setFields status_data
    ([("status", JVal.s status), ("progress", JVal.n progress),
      ("message", JVal.s message), ("updated_at", JVal.t now)] ++ kwargs)
  insertStore store job_id status_data

/-- The file operations `update_job_status` performs: an optional read of the
current file, `os.makedirs`, then `open(status_file, "w")` + `json.dump`. -/
def update_job_status_ops (job_id : String) (fileExists : Bool) : List FileOp :=
  (if fileExists then [FileOp.readF (statusPath job_id)] else []) ++
  [FileOp.mkdirs "STORAGE_ROOT/status", FileOp.writeF (statusPath job_id)]

theorem getField_setField_self (r : Record) (k : String) (v : JVal) :
    getField (setField r k v) k = some v := by
  induction r with
  | nil => simp [setField, getField]
  | cons hd tl ih =>
    obtain ⟨k', v'⟩ := hd
    by_cases h : k' = k <;> simp [setField, getField, h, ih]

theorem getField_setField_ne (r : Record) (k k' : String) (v : JVal) (h : k' ≠ k) :
    getField (setField r k v) k' = getField r k' := by
  induction r with
  | nil => simp [setField, getField, Ne.symm h]
  | cons hd tl ih =>
    obtain ⟨k0, v0⟩ := hd
    by_cases h0 : k0 = k
    · subst h0
      simp [setField, getField, Ne.symm h, h]
    · by_cases h1 : k0 = k' <;> simp [setField, getField, h, h0, h1, ih]

theorem getField_setFields_notMem (us : List (String × JVal)) (r : Record) (k : String)
    (h : k ∉ us.map Prod.fst) : getField (setFields r us) k = getField r k := by
  induction us generalizing r with
  | nil => simp [setFields]
  | cons hd tl ih =>
    simp only [List.map_cons, List.mem_cons] at h
    push_neg at h
    have : setFields r (hd :: tl) = setFields (setField r hd.1 hd.2) tl := by
      simp [setFields]
    rw [this, ih _ h.2, getField_setField_ne _ _ _ _ h.1]

theorem lookupStore_insertStore_self (store : StatusStore) (job_id : String) (r : Record) :
    lookupStore (insertStore store job_id r) job_id = some r := by
  induction store with
  | nil => simp [insertStore, lookupStore]
  | cons hd tl ih =>
    obtain ⟨j, r'⟩ := hd
    by_cases h : j = job_id <;> simp [insertStore, lookupStore, h, ih]

theorem lookupStore_insertStore_ne (store : StatusStore) (job_id j : String) (r : Record)
    (h : j ≠ job_id) : lookupStore (insertStore store job_id r) j = lookupStore store j := by
  induction store with
  | nil => simp [insertStore, lookupStore, Ne.symm h]
  | cons hd tl ih =>
    obtain ⟨j0, r0⟩ := hd
    by_cases h0 : j0 = job_id
    · subst h0
      simp [insertStore, lookupStore, Ne.symm h, h]
    · by_cases h1 : j0 = j <;> simp [insertStore, lookupStore, h, h0, h1, ih]

theorem lookupStore_removeStore_self (store : StatusStore) (job_id : String) :
    lookupStore (removeStore store job_id) job_id = none := by
  induction store with
  | nil => simp [removeStore, lookupStore]
  | cons hd tl ih =>
    obtain ⟨j, r⟩ := hd
    by_cases h : j = job_id
    · subst h
      simpa [removeStore, List.filter_cons] using ih
    · have hb : (j != job_id) = true := by simp [h]
      simpa [removeStore, List.filter_cons, hb, lookupStore, h] using ih

/-- The subset of `src/api/settings.py` the orchestration core reads. -/
structure Settings where
  MIN_IMAGES : Nat
  MAX_IMAGES : Nat
  MAX_UPLOAD_MB : Nat
  ENABLE_SAM_SEGMENTATION : Bool
  deriving DecidableEq, Repr

/-- `settings.MAX_UPLOAD_MB * 1024 * 1024` (bytes). -/
def uploadLimit (cfg : Settings) : Nat :=
  cfg.MAX_UPLOAD_MB * 1024 * 1024

/-- Durable state visible to both the API process and the worker: the status
directory, and which per-job paths exist on disk (workspace directory,
`artifacts/<job_id>.glb`, fallback `artifacts/<job_id>.gltf`). `clock` models
wall time for `datetime.utcnow()`. -/
structure SysState where
  store : StatusStore
  workspaces : List String
  artifacts : List String
  gltfArtifacts : List String
  clock : Nat
  deriving DecidableEq, Repr

/-- Outcome of an HTTP endpoint: a JSON payload or an `HTTPException`
carrying a status code and detail string. -/
inductive ApiResult (α : Type) where
  | ok (v : α)
  | err (code : Nat) (detail : String)
  deriving DecidableEq, Repr

def ApiResult.isOk {α : Type} : ApiResult α → Bool
  | ApiResult.ok _ => true
  | ApiResult.err _ _ => false

/-- A job submission as the endpoint sees it: whether `json.loads(options)`
succeeds, the raw options text (opaque to the core), and the byte sizes of
the uploaded images in upload order. -/
structure CreateReq where
  optionsValid : Bool
  optionsRaw : String
  imageSizes : List Nat
  deriving DecidableEq, Repr

/-- The upload loop of `create_job` (lines 138–164): stream each file to
disk, add its size to the running total, and abort with 413 the moment the
total exceeds the limit. Returns the final total when all files fit. -/
def saveImagesLoop (limit : Nat) : List Nat → Nat → Option Nat
  | [], total => some total
  | sz :: rest, total =>
    let total := total + sz
    if limit < total then none else saveImagesLoop limit rest total

/-- `create_job` from `src/api/main.py` (lines 87–195). `job_id` stands for
the freshly generated `uuid.uuid4()` string. Float rounding of
`total_size_mb` is abstracted: the field stores the byte total. The Celery
`task_id` is modelled as equal to the job id. -/
def create_job (cfg : Settings) (req : CreateReq) (job_id : String) (st : SysState) :
    SysState × ApiResult Record :=
  if !req.optionsValid then
    (st, ApiResult.err 400 "Invalid JSON in options parameter")
  else
    let n := req.imageSizes.length
    if n < cfg.MIN_IMAGES then
      (st, ApiResult.err 400 "Need at least MIN_IMAGES images for reconstruction")
    else if cfg.MAX_IMAGES < n then
      (st, ApiResult.err 400 "Maximum MAX_IMAGES images allowed")
    else
      let st1 := { st with workspaces := job_id :: st.workspaces }
      match saveImagesLoop (uploadLimit cfg) req.imageSizes 0 with
      | none =>
        ({ st1 with workspaces := st1.workspaces.filter (fun w => w != job_id) },
         ApiResult.err 413 "Total upload size exceeds MAX_UPLOAD_MB limit")
      | some total =>
        let status_data : Record :=
          [("job_id", JVal.s job_id), ("status", JVal.s "queued"),
           ("created_at", JVal.t st.clock), ("num_images", JVal.n n),
           ("total_size_mb", JVal.n total), ("options", JVal.s req.optionsRaw),
           ("progress", JVal.n 0), ("message", JVal.s "Job queued for processing")]
        ({ st1 with
            store := save_job_status st1.store job_id status_data,
            clock := st.clock + 1 },
         ApiResult.ok [("job_id", JVal.s job_id), ("task_id", JVal.s job_id),
           ("status", JVal.s "queued"), ("message", JVal.s "Job created successfully")])

/-- The endpoint `get_job_status` from `src/api/main.py` (lines 198–237).
`validUuid` models whether `uuid.UUID(job_id)` parses. -/
def get_job_status (validUuid : Bool) (job_id : String) (st : SysState) :
    ApiResult Record :=
  if !validUuid then ApiResult.err 400 "Invalid job ID format"
  else
    match lookupStore st.store job_id with
    | none => ApiResult.err 404 "Job not found"
    | some status_data => ApiResult.ok status_data

/-- `get_artifact` from `src/api/main.py` (lines 240–293). On success the
payload is the download filename of the served `FileResponse`. -/
def get_artifact (validUuid : Bool) (job_id : String) (st : SysState) :
    ApiResult String :=
  if !validUuid then ApiResult.err 400 "Invalid job ID format"
  else
    match lookupStore st.store job_id with
    | none => ApiResult.err 404 "Job not found"
    | some status_data =>
      if statusOf status_data ≠ "completed" then
        ApiResult.err 409 ("Job not completed yet. Current status: " ++ statusOf status_data)
      else if job_id ∈ st.artifacts then
        ApiResult.ok ("atlas-" ++ job_id ++ ".glb")
      else ApiResult.err 404 "Artifact file not found"

/-- `delete_job` from `src/api/main.py` (lines 296–332): removes workspace,
`.glb` artifact and status file, each only if present; always succeeds for a
well-formed id. The `.gltf` fallback file is not touched by the code. -/
def delete_job (validUuid : Bool) (job_id : String) (st : SysState) :
    SysState × ApiResult String :=
  if !validUuid then (st, ApiResult.err 400 "Invalid job ID format")
  else
    ({ st with
        workspaces := st.workspaces.filter (fun w => w != job_id),
        artifacts := st.artifacts.filter (fun a => a != job_id),
        store := removeStore st.store job_id },
     ApiResult.ok ("Job " ++ job_id ++ " deleted successfully"))

/-- Behaviour of the external calls inside `export_glb`
(`src/worker/pipeline/export.py`, lines 18–91) on one run: whether a mesh
file is found, whether loading/validating it raises, whether the GLB
`mesh.export` raises, and whether the fallback GLTF export raises. -/
structure ExportEnv where
  meshFound : Bool
  loadFailure : Option String
  glbExportFails : Bool
  gltfExportFails : Bool
  deriving DecidableEq, Repr

/-- `export_glb`: raises when no mesh is found or loading fails; if the GLB
export raises, falls back to writing a `.gltf` next to the requested path and
returns normally (unless the fallback itself raises). Returns
`(glbWritten, gltfWritten)`. -/
def export_glb (env : ExportEnv) : Except String (Bool × Bool) :=
  if !env.meshFound then Except.error "No mesh found in mesh_dir"
  else
    match env.loadFailure with
    | some e => Except.error e
    | none =>
      if env.glbExportFails then
        if env.gltfExportFails then Except.error "GLTF fallback export failed"
        else Except.ok (false, true)
      else Except.ok (true, false)

/-- Behaviour of the trimesh analysis inside `compute_qa_metrics` on one run:
the artifact's size, whether the load/analysis raises (caught internally),
and the analysed geometry counts. -/
structure QaEnv where
  fileSizeMb : Int
  analysisFails : Bool
  triangleCount : Int
  vertexCount : Int
  textureSize : Option (Int × Int)
  deriving DecidableEq, Repr

/-- The defaults dict `compute_qa_metrics` starts from. -/
def qaDefaults : QaMetrics :=
  { file_size_mb := 0, triangle_count := 0, vertex_count := 0,
    texture_size := none, bounding_box_present := false,
    estimated_quality := "medium" }

/-- Triangle-density quality estimate (lines 170–176 of export.py). -/
def estimateQuality (t : Int) : String :=
  if 50000 < t then "high" else if 10000 < t then "medium" else "low"

/-- `compute_qa_metrics` from `src/worker/pipeline/export.py` (lines
108–211): returns defaults when the artifact file is absent; otherwise fills
in the file size, and the geometry fields only if the trimesh analysis
succeeds (an analysis exception is caught and the partial dict returned).
The function never raises. -/
def compute_qa_metrics (artifactExists : Bool) (env : QaEnv) : QaMetrics :=
  if !artifactExists then qaDefaults
  else
    let m := { qaDefaults with file_size_mb := env.fileSizeMb }
    if env.analysisFails then m
    else
      { m with
          triangle_count := env.triangleCount,
          vertex_count := env.vertexCount,
          texture_size := env.textureSize,
          bounding_box_present := true,
          estimated_quality := estimateQuality env.triangleCount }

/-- Behaviour of the five external stage calls of `run_reconstruction` on one
run (`none` = the call returns, `some e` = it raises with message `e`).
`maskGenResult` is the white-mask fallback loop used when SAM is disabled. -/
structure PipelineEnv where
  samResult : Option String
  maskGenResult : Option String
  openmvgResult : Option String
  openmvsResult : Option String
  postprocResult : Option String
  exportEnv : ExportEnv
  qa : QaEnv
  deriving DecidableEq, Repr

/-- Result of one delivery of a job to the worker: the durable state after
the attempt, the ordered list of `(status, progress)` pairs written to the
status store during the attempt, and the task outcome (`Except.error e`
models the exception re-raised to Celery). -/
structure RunResult where
  state : SysState
  trace : List (String × Int)
  outcome : Except String Record
  deriving Repr

/-- One `update_job_status` call made by the worker: merge-write the status
file at the current wall time, advance the clock, append to the write trace. -/
def writeStatus (st : SysState) (tr : List (String × Int)) (job_id status : String)
    (progress : Int) (message : String) (kwargs : List (String × JVal)) :
    SysState × List (String × Int) :=
  ({ st with
      store := update_job_status st.store job_id status progress message st.clock kwargs,
      clock := st.clock + 1 },
   tr ++ [(status, progress)])

/-- The `except` block of `run_reconstruction` (lines 217–235): write a
`failed` record with `progress = self.request.retries * 10`,
`message = "Error: <cause>"`, the cause in `error` and the formatted
traceback, then re-raise the exception. The status write is completed (it is
part of the returned state) before the error outcome is produced. -/
def failJob (st : SysState) (tr : List (String × Int)) (job_id : String)
    (retries : Nat) (cause : String) : RunResult :=
  let out := writeStatus st tr job_id "failed" ((retries : Int) * 10)
    ("Error: " ++ cause)
    [("error", JVal.s cause),
     ("traceback", JVal.s ("Traceback (most recent call last): " ++ cause))]
  { state := out.1, trace := out.2, outcome := Except.error cause }

/-- `run_reconstruction` from `src/worker/tasks.py` (lines 89–235): the
Celery task body. `retries` is `self.request.retries` for this delivery.
Directory creation for the workspace subtrees is abstracted away (it decides
no claim); stage calls are the environment's black boxes. -/
def run_reconstruction (cfg : Settings) (env : PipelineEnv) (retries : Nat)
    (job_id : String) (st0 : SysState) : RunResult :=
  let w0 := writeStatus st0 [] job_id "processing" 0 "Pipeline started" []
  let seg :=
    if cfg.ENABLE_SAM_SEGMENTATION then
      let w1 := writeStatus w0.1 w0.2 job_id "processing" 10
        "Running SAM segmentation..." []
      (w1.1, w1.2, env.samResult)
    else
      (w0.1, w0.2, env.maskGenResult)
  match seg.2.2 with
  | some e => failJob seg.1 seg.2.1 job_id retries e
  | none =>
    let w2 := writeStatus seg.1 seg.2.1 job_id "processing" 20
      "Running sparse reconstruction (OpenMVG)..." []
    match env.openmvgResult with
    | some e => failJob w2.1 w2.2 job_id retries e
    | none =>
      let w3 := writeStatus w2.1 w2.2 job_id "processing" 50
        "Running dense reconstruction (OpenMVS)..." []
      match env.openmvsResult with
      | some e => failJob w3.1 w3.2 job_id retries e
      | none =>
        let w4 := writeStatus w3.1 w3.2 job_id "processing" 70
          "Post-processing mesh..." []
        match env.postprocResult with
        | some e => failJob w4.1 w4.2 job_id retries e
        | none =>
          let w5 := writeStatus w4.1 w4.2 job_id "processing" 90
            "Exporting to GLB format..." []
          match export_glb env.exportEnv with
          | Except.error e => failJob w5.1 w5.2 job_id retries e
          | Except.ok written =>
            let st := { w5.1 with
              artifacts := if written.1 then job_id :: w5.1.artifacts
                else w5.1.artifacts,
              gltfArtifacts := if written.2 then job_id :: w5.1.gltfArtifacts
                else w5.1.gltfArtifacts }
            let metrics := compute_qa_metrics (st.artifacts.contains job_id) env.qa
            let w6 := writeStatus st w5.2 job_id "completed" 100
              "Reconstruction complete"
              [("completed_at", JVal.t st.clock), ("metrics", JVal.metricsV metrics)]
            { state := w6.1, trace := w6.2,
              outcome := Except.ok
                [("job_id", JVal.s job_id), ("status", JVal.s "completed"),
                 ("progress", JVal.n 100), ("metrics", JVal.metricsV metrics)] }

theorem setFields_append (r : Record) (us vs : List (String × JVal)) :
    setFields r (us ++ vs) = setFields (setFields r us) vs := by
  simp [setFields, List.foldl_append]

theorem lookupStore_update_self (store : StatusStore) (job_id status : String)
    (progress : Int) (message : String) (now : Nat) (kwargs : List (String × JVal)) :
    lookupStore (update_job_status store job_id status progress message now kwargs) job_id
      = some (setFields ((lookupStore store job_id).getD [])
          ([("status", JVal.s status), ("progress", JVal.n progress),
            ("message", JVal.s message), ("updated_at", JVal.t now)] ++ kwargs)) := by
  unfold update_job_status
  exact lookupStore_insertStore_self _ _ _

theorem saveImagesLoop_of_sum_le (limit : Nat) (l : List Nat) (acc : Nat)
    (h : acc + l.sum ≤ limit) : saveImagesLoop limit l acc = some (acc + l.sum) := by
  induction l generalizing acc with
  | nil => simp [saveImagesLoop]
  | cons x xs ih =>
    have hsum : (x :: xs).sum = x + xs.sum := by simp
    rw [hsum] at h
    have hx : ¬ limit < acc + x := by omega
    have := ih (acc + x) (by omega)
    simp only [saveImagesLoop, if_neg hx]
    rw [this]
    congr 1
    omega

/-- Demo configuration used by concrete instances below. -/
def cfgDemo : Settings :=
  { MIN_IMAGES := 2, MAX_IMAGES := 50, MAX_UPLOAD_MB := 100,
    ENABLE_SAM_SEGMENTATION := true }

/-- An environment in which every pipeline stage succeeds, including GLB
export and QA analysis. -/
def envAllOk : PipelineEnv :=
  { samResult := none, maskGenResult := none, openmvgResult := none,
    openmvsResult := none, postprocResult := none,
    exportEnv := { meshFound := true, loadFailure := none,
                   glbExportFails := false, gltfExportFails := false },
    qa := { fileSizeMb := 5, analysisFails := false, triangleCount := 60000,
            vertexCount := 30000, textureSize := none } }

/-- A status record of a job that already completed. -/
def termRec : Record :=
  [("job_id", JVal.s "J"), ("status", JVal.s "completed"),
   ("created_at", JVal.t 0), ("progress", JVal.n 100),
   ("message", JVal.s "Reconstruction complete"), ("completed_at", JVal.t 3)]

/-- Durable state holding the completed job `J` and its artifact. -/
def termState : SysState :=
  { store := [("J", termRec)], workspaces := ["J"], artifacts := ["J"],
    gltfArtifacts := [], clock := 4 }

/-- A status record of a freshly queued job. -/
def queuedRec : Record :=
  [("job_id", JVal.s "J"), ("status", JVal.s "queued"),
   ("created_at", JVal.t 0), ("num_images", JVal.n 3),
   ("total_size_mb", JVal.n 30), ("options", JVal.s "\x7b\x7d"),
   ("progress", JVal.n 0), ("message", JVal.s "Job queued for processing")]

/-- Durable state right after submission of job `J`. -/
def queuedState : SysState :=
  { store := [("J", queuedRec)], workspaces := ["J"], artifacts := [],
    gltfArtifacts := [], clock := 1 }

/-- C2, counterexample: `save_job_status` drops the pre-existing
`created_at` field (it does not merge) and sets no `updated_at`, and neither
status writer uses write-to-temp-then-rename: both write the final path
directly. -/
theorem C2_store_write_counterexample :
    getField ((lookupStore (save_job_status [("J", [("created_at", JVal.t 5)])] "J"
        [("status", JVal.s "failed")]) "J").getD []) "created_at" = none
    ∧ getField ((lookupStore (save_job_status [("J", [("created_at", JVal.t 5)])] "J"
        [("status", JVal.s "failed")]) "J").getD []) "updated_at" = none
    ∧ usesAtomicReplace (save_job_status_ops "J") (statusPath "J") = false
    ∧ usesAtomicReplace (update_job_status_ops "J" true) (statusPath "J") = false := by
  decide

/-- C2 (amended): `update_job_status` merges the partial update into the
existing record and sets `updated_at`, but `save_job_status` replaces the
record wholesale (no merge, no `updated_at`); and both writers persist via a
direct write to the status file, never write-to-temp-then-rename, so
atomic-replace protection for concurrent readers is absent. -/
theorem C2_store_write_behavior
    (store : StatusStore) (job_id status message : String) (progress : Int)
    (now : Nat) (kwargs : List (String × JVal)) (data : Record) (k : String)
    (fileExists : Bool)
    (hk : k ∉ ("status" :: "progress" :: "message" :: "updated_at" ::
      kwargs.map Prod.fst))
    (hu : "updated_at" ∉ kwargs.map Prod.fst) :
    lookupStore (save_job_status store job_id data) job_id = some data
    ∧ getField ((lookupStore (update_job_status store job_id status progress
        message now kwargs) job_id).getD []) k
        = getField ((lookupStore store job_id).getD []) k
    ∧ getField ((lookupStore (update_job_status store job_id status progress
        message now kwargs) job_id).getD []) "updated_at"
        = some (JVal.t now)
    ∧ usesAtomicReplace (save_job_status_ops job_id) (statusPath job_id) = false
    ∧ usesAtomicReplace (update_job_status_ops job_id fileExists)
        (statusPath job_id) = false := by
  simp only [List.mem_cons, not_or] at hk
  obtain ⟨hk1, hk2, hk3, hk4, hk5⟩ := hk
  refine ⟨lookupStore_insertStore_self _ _ _, ?_, ?_, ?_, ?_⟩
  · rw [lookupStore_update_self]
    simp only [Option.getD_some]
    rw [getField_setFields_notMem]
    simp [hk1, hk2, hk3, hk4, hk5]
  · rw [lookupStore_update_self]
    simp only [Option.getD_some]
    rw [setFields_append, getField_setFields_notMem _ _ _ hu]
    simp [setFields, getField_setField_self]
  · simp [usesAtomicReplace, save_job_status_ops]
  · cases fileExists <;> simp [usesAtomicReplace, update_job_status_ops]

/-- C2, witness for the amended theorem at a concrete input. -/
theorem C2_store_write_behavior_witness :
    lookupStore (save_job_status [("J", [("created_at", JVal.t 5)])] "J"
        [("status", JVal.s "x")]) "J" = some [("status", JVal.s "x")]
    ∧ getField ((lookupStore (update_job_status [("J", [("created_at", JVal.t 5)])]
        "J" "processing" 0 "m" 7 []) "J").getD []) "created_at"
        = getField ((lookupStore [("J", [("created_at", JVal.t 5)])] "J").getD [])
            "created_at"
    ∧ getField ((lookupStore (update_job_status [("J", [("created_at", JVal.t 5)])]
        "J" "processing" 0 "m" 7 []) "J").getD []) "updated_at"
        = some (JVal.t 7)
    ∧ usesAtomicReplace (save_job_status_ops "J") (statusPath "J") = false
    ∧ usesAtomicReplace (update_job_status_ops "J" false) (statusPath "J") = false :=
  C2_store_write_behavior [("J", [("created_at", JVal.t 5)])] "J" "processing" "m"
    0 7 [] [("status", JVal.s "x")] "created_at" false (by decide) (by decide)

/-- C5: every submission rejected by validation (malformed options JSON,
image count out of bounds, or cumulative upload size over the byte limit) is
rejected with an error, creates no status record, and leaves no workspace
directory for the fresh job id on disk — in the too-large case the partially
written workspace is deleted before the error is returned. -/
theorem C5_rejection_no_side_effects (cfg : Settings) (req : CreateReq)
    (job_id : String) (st : SysState)
    (hw : job_id ∉ st.workspaces)
    (hs : lookupStore st.store job_id = none)
    (hrej : req.optionsValid = false
      ∨ req.imageSizes.length < cfg.MIN_IMAGES
      ∨ cfg.MAX_IMAGES < req.imageSizes.length
      ∨ saveImagesLoop (uploadLimit cfg) req.imageSizes 0 = none) :
    (create_job cfg req job_id st).2.isOk = false
    ∧ job_id ∉ (create_job cfg req job_id st).1.workspaces
    ∧ lookupStore (create_job cfg req job_id st).1.store job_id = none := by
  unfold create_job
  cases hopt : req.optionsValid with
  | false => simpa [ApiResult.isOk] using ⟨hw, hs⟩
  | true =>
    by_cases h1 : req.imageSizes.length < cfg.MIN_IMAGES
    · simpa [h1, ApiResult.isOk] using ⟨hw, hs⟩
    · by_cases h2 : cfg.MAX_IMAGES < req.imageSizes.length
      · simpa [h1, h2, ApiResult.isOk] using ⟨hw, hs⟩
      · have hloop : saveImagesLoop (uploadLimit cfg) req.imageSizes 0 = none := by
          rcases hrej with h | h | h | h
          · rw [hopt] at h; cases h
          · exact absurd h h1
          · exact absurd h h2
          · exact h
        simp [h1, h2, hloop, ApiResult.isOk, List.mem_filter, hs]

/-- C5, witness: a two-image submission whose cumulative size exceeds the
configured ceiling is rejected and leaves no workspace and no status record. -/
theorem C5_rejection_no_side_effects_witness :
    (create_job cfgDemo
      { optionsValid := true, optionsRaw := "\x7b\x7d", imageSizes := [104857600, 1] }
      "K" queuedState).2.isOk = false
    ∧ "K" ∉ (create_job cfgDemo
      { optionsValid := true, optionsRaw := "\x7b\x7d", imageSizes := [104857600, 1] }
      "K" queuedState).1.workspaces
    ∧ lookupStore (create_job cfgDemo
      { optionsValid := true, optionsRaw := "\x7b\x7d", imageSizes := [104857600, 1] }
      "K" queuedState).1.store "K" = none :=
  C5_rejection_no_side_effects cfgDemo _ "K" queuedState (by decide) (by decide)
    (by decide)

/-- C8: the artifact fetch returns the model only for a completed job with
the artifact present; a non-completed status yields a 409 conflict whose
detail names the current status; a completed job with the artifact file
absent yields a 404. -/
theorem C8_artifact_fetch_gating (st : SysState) (job_id : String) (rec : Record)
    (hrec : lookupStore st.store job_id = some rec) :
    (statusOf rec = "completed" → job_id ∈ st.artifacts →
        get_artifact true job_id st = ApiResult.ok ("atlas-" ++ job_id ++ ".glb"))
    ∧ (statusOf rec ≠ "completed" →
        get_artifact true job_id st = ApiResult.err 409
          ("Job not completed yet. Current status: " ++ statusOf rec))
    ∧ (statusOf rec = "completed" → job_id ∉ st.artifacts →
        get_artifact true job_id st = ApiResult.err 404 "Artifact file not found") := by
  refine ⟨fun hc ha => ?_, fun hc => ?_, fun hc ha => ?_⟩
  · simp [get_artifact, hrec, hc, ha]
  · simp [get_artifact, hrec, hc]
  · simp [get_artifact, hrec, hc, ha]

/-- C8, witness: the three gates at concrete states. -/
theorem C8_artifact_fetch_gating_witness :
    get_artifact true "J" termState = ApiResult.ok ("atlas-" ++ "J" ++ ".glb")
    ∧ get_artifact true "J" queuedState = ApiResult.err 409
        ("Job not completed yet. Current status: " ++ statusOf queuedRec)
    ∧ get_artifact true "J" { termState with artifacts := [] }
        = ApiResult.err 404 "Artifact file not found" :=
  ⟨(C8_artifact_fetch_gating termState "J" termRec (by decide)).1 (by decide)
      (by decide),
   (C8_artifact_fetch_gating queuedState "J" queuedRec (by decide)).2.1 (by decide),
   (C8_artifact_fetch_gating { termState with artifacts := [] } "J" termRec
      (by decide)).2.2 (by decide) (by decide)⟩

/-- C9: deleting a job with a well-formed id twice returns success both
times, and afterwards no workspace, no artifact and no status record for the
id remain, whatever was present before. -/
theorem C9_delete_idempotent (st : SysState) (job_id : String) :
    (delete_job true job_id st).2
        = ApiResult.ok ("Job " ++ job_id ++ " deleted successfully")
    ∧ (delete_job true job_id (delete_job true job_id st).1).2
        = ApiResult.ok ("Job " ++ job_id ++ " deleted successfully")
    ∧ job_id ∉ (delete_job true job_id (delete_job true job_id st).1).1.workspaces
    ∧ job_id ∉ (delete_job true job_id (delete_job true job_id st).1).1.artifacts
    ∧ lookupStore (delete_job true job_id (delete_job true job_id st).1).1.store
        job_id = none := by
  refine ⟨rfl, rfl, ?_, ?_, lookupStore_removeStore_self _ _⟩ <;>
    simp [delete_job, List.mem_filter]

/-- C10: a valid submission (image count within bounds, total size within
the limit, well-formed options) succeeds, and an immediately-subsequent
status query returns the persisted record with status `queued` and
progress 0. -/
theorem C10_valid_submission_queued (cfg : Settings) (req : CreateReq)
    (job_id : String) (st : SysState)
    (hopt : req.optionsValid = true)
    (hmin : cfg.MIN_IMAGES ≤ req.imageSizes.length)
    (hmax : req.imageSizes.length ≤ cfg.MAX_IMAGES)
    (hsize : req.imageSizes.sum ≤ uploadLimit cfg) :
    (create_job cfg req job_id st).2.isOk = true
    ∧ ∃ rec, get_job_status true job_id (create_job cfg req job_id st).1
        = ApiResult.ok rec
      ∧ statusOf rec = "queued"
      ∧ getField rec "progress" = some (JVal.n 0) := by
  have hloop : saveImagesLoop (uploadLimit cfg) req.imageSizes 0
      = some (0 + req.imageSizes.sum) :=
    saveImagesLoop_of_sum_le _ _ _ (by omega)
  have h1 : ¬ req.imageSizes.length < cfg.MIN_IMAGES := by omega
  have h2 : ¬ cfg.MAX_IMAGES < req.imageSizes.length := by omega
  unfold create_job
  simp only [hopt, Bool.not_true, Bool.false_eq_true, if_false, h1, h2, if_neg,
    hloop]
  refine ⟨rfl, [("job_id", JVal.s job_id), ("status", JVal.s "queued"),
    ("created_at", JVal.t st.clock),
    ("num_images", JVal.n (req.imageSizes.length : Int)),
    ("total_size_mb", JVal.n ((0 + req.imageSizes.sum : Nat) : Int)),
    ("options", JVal.s req.optionsRaw), ("progress", JVal.n 0),
    ("message", JVal.s "Job queued for processing")], ?_, ?_, ?_⟩
  · simp [get_job_status, lookupStore_insertStore_self, save_job_status]
  · simp [statusOf, getField]
  · simp [getField]

/-- C10, witness: a three-image submission against the demo configuration. -/
theorem C10_valid_submission_queued_witness :
    (create_job cfgDemo
      { optionsValid := true, optionsRaw := "\x7b\x7d", imageSizes := [10, 20, 30] }
      "K" queuedState).2.isOk = true
    ∧ ∃ rec, get_job_status true "K" (create_job cfgDemo
      { optionsValid := true, optionsRaw := "\x7b\x7d", imageSizes := [10, 20, 30] }
      "K" queuedState).1 = ApiResult.ok rec
      ∧ statusOf rec = "queued"
      ∧ getField rec "progress" = some (JVal.n 0) :=
  C10_valid_submission_queued cfgDemo _ "K" queuedState (by decide) (by decide)
    (by decide) (by decide)

/-- An environment in which stages 1–4 succeed and the GLB export stage
raises because no mesh file is found. -/
def envExportFail : PipelineEnv :=
  { envAllOk with
      exportEnv := { meshFound := false, loadFailure := none,
                     glbExportFails := false, gltfExportFails := false } }

/-- An environment in which every stage succeeds but the QA metrics analysis
raises (caught inside `compute_qa_metrics`). -/
def envQaFail : PipelineEnv :=
  { envAllOk with
      qa := { fileSizeMb := 5, analysisFails := true, triangleCount := 0,
              vertexCount := 0, textureSize := none } }

/-- An environment in which every stage succeeds except that the GLB
`mesh.export` raises, triggering the GLTF fallback inside `export_glb`. -/
def envGlbFail : PipelineEnv :=
  { envAllOk with
      exportEnv := { meshFound := true, loadFailure := none,
                     glbExportFails := true, gltfExportFails := false } }

/-- C1, counterexample: re-delivering the already-completed job `J` to
`run_reconstruction` is not a no-op — seven status writes occur, the first
one resets the record to `processing` with progress 0, and the terminal
record's `completed_at` field ends up changed. -/
theorem C1_redelivery_counterexample :
    (run_reconstruction cfgDemo envAllOk 0 "J" termState).trace.length = 7
    ∧ (run_reconstruction cfgDemo envAllOk 0 "J" termState).trace.head?
        = some ("processing", 0)
    ∧ getField ((lookupStore (run_reconstruction cfgDemo envAllOk 0 "J"
        termState).state.store "J").getD []) "completed_at"
        ≠ getField termRec "completed_at" := by
  decide

/-- C1 (amended): re-delivering a job to the executor is never a no-op,
whatever the persisted status: `run_reconstruction` performs no check of the
current status, its first action always writes `status = processing`,
`progress = 0` over the existing record, and at least one further status
write follows. -/
theorem C1_redelivery_overwrites (cfg : Settings) (env : PipelineEnv)
    (retries : Nat) (job_id : String) (st0 : SysState) :
    (run_reconstruction cfg env retries job_id st0).trace.head?
      = some ("processing", 0)
    ∧ 2 ≤ (run_reconstruction cfg env retries job_id st0).trace.length := by
  obtain ⟨sam, mask, mvg, mvs, post, ex, qa⟩ := env
  unfold run_reconstruction
  cases hS : cfg.ENABLE_SAM_SEGMENTATION <;>
  cases sam <;> cases mask <;> cases mvg <;> cases mvs <;> cases post <;>
  cases he : export_glb ex <;>
  simp [writeStatus, failJob, he]

/-- C3, counterexample: with stages 1–4 succeeded (the progress floor
reached 90) and the export stage raising on first delivery (retries = 0),
the failure record carries `progress = 0`, not the floor 90 the claim
requires. -/
theorem C3_failure_progress_counterexample :
    (run_reconstruction cfgDemo envExportFail 0 "J" queuedState).trace
      = [("processing", 0), ("processing", 10), ("processing", 20),
         ("processing", 50), ("processing", 70), ("processing", 90),
         ("failed", 0)]
    ∧ getField ((lookupStore (run_reconstruction cfgDemo envExportFail 0 "J"
        queuedState).state.store "J").getD []) "progress" = some (JVal.n 0)
    ∧ (0 : Int) ≠ 90 := by
  decide

/-- C3 (amended): when a pipeline stage raises, the executor aborts the
remaining stages and, before re-raising the exception to the task-queue
context, writes a status record with `status = failed`,
`progress = retries * 10` (the Celery retry counter times ten — not the
cumulative progress floor of the completed stages), `message = "Error:
<cause>"`, the cause in `error`, and a diagnostic traceback. -/
theorem C3_failure_write (cfg : Settings) (env : PipelineEnv) (retries : Nat)
    (job_id : String) (st0 : SysState) (cause : String)
    (hout : (run_reconstruction cfg env retries job_id st0).outcome
      = Except.error cause) :
    statusOf ((lookupStore (run_reconstruction cfg env retries job_id
        st0).state.store job_id).getD []) = "failed"
    ∧ getField ((lookupStore (run_reconstruction cfg env retries job_id
        st0).state.store job_id).getD []) "progress"
        = some (JVal.n ((retries : Int) * 10))
    ∧ getField ((lookupStore (run_reconstruction cfg env retries job_id
        st0).state.store job_id).getD []) "message"
        = some (JVal.s ("Error: " ++ cause))
    ∧ getField ((lookupStore (run_reconstruction cfg env retries job_id
        st0).state.store job_id).getD []) "error" = some (JVal.s cause)
    ∧ getField ((lookupStore (run_reconstruction cfg env retries job_id
        st0).state.store job_id).getD []) "traceback"
        = some (JVal.s ("Traceback (most recent call last): " ++ cause))
    ∧ (run_reconstruction cfg env retries job_id st0).trace.getLast?
        = some ("failed", (retries : Int) * 10) := by
  obtain ⟨sam, mask, mvg, mvs, post, ex, qa⟩ := env
  unfold run_reconstruction at hout ⊢
  cases hS : cfg.ENABLE_SAM_SEGMENTATION <;> rw [hS] at hout <;>
  cases sam <;> cases mask <;> cases mvg <;> cases mvs <;> cases post <;>
  cases he : export_glb ex <;> rw [he] at hout <;>
  simp_all [writeStatus, failJob, update_job_status, lookupStore_insertStore_self,
    statusOf, setFields, getField_setField_self, getField_setField_ne]

/-- C3, witness: a second delivery (retries = 1) failing at the export stage
writes a `failed` record with progress 10 before the exception propagates. -/
theorem C3_failure_write_witness :
    statusOf ((lookupStore (run_reconstruction cfgDemo envExportFail 1 "J"
        queuedState).state.store "J").getD []) = "failed"
    ∧ getField ((lookupStore (run_reconstruction cfgDemo envExportFail 1 "J"
        queuedState).state.store "J").getD []) "progress"
        = some (JVal.n ((1 : Nat) * 10))
    ∧ getField ((lookupStore (run_reconstruction cfgDemo envExportFail 1 "J"
        queuedState).state.store "J").getD []) "message"
        = some (JVal.s ("Error: " ++ "No mesh found in mesh_dir"))
    ∧ getField ((lookupStore (run_reconstruction cfgDemo envExportFail 1 "J"
        queuedState).state.store "J").getD []) "error"
        = some (JVal.s "No mesh found in mesh_dir")
    ∧ getField ((lookupStore (run_reconstruction cfgDemo envExportFail 1 "J"
        queuedState).state.store "J").getD []) "traceback"
        = some (JVal.s ("Traceback (most recent call last): "
            ++ "No mesh found in mesh_dir"))
    ∧ (run_reconstruction cfgDemo envExportFail 1 "J" queuedState).trace.getLast?
        = some ("failed", (1 : Int) * 10) :=
  C3_failure_write cfgDemo envExportFail 1 "J" queuedState
    "No mesh found in mesh_dir" rfl

/-- C4: when every stage through GLB export succeeds, a failure inside the
QA metrics analysis does not flip the job to `failed`: metrics are written
defaulted (file size only) and the job completes with progress 100 and a
`completed_at` timestamp. -/
theorem C4_metrics_failure_completed (cfg : Settings) (env : PipelineEnv)
    (retries : Nat) (job_id : String) (st0 : SysState)
    (hsam : env.samResult = none) (hmask : env.maskGenResult = none)
    (hmvg : env.openmvgResult = none) (hmvs : env.openmvsResult = none)
    (hpost : env.postprocResult = none)
    (hexp : export_glb env.exportEnv = Except.ok (true, false))
    (hqa : env.qa.analysisFails = true) :
    (∃ r, (run_reconstruction cfg env retries job_id st0).outcome = Except.ok r)
    ∧ statusOf ((lookupStore (run_reconstruction cfg env retries job_id
        st0).state.store job_id).getD []) = "completed"
    ∧ getField ((lookupStore (run_reconstruction cfg env retries job_id
        st0).state.store job_id).getD []) "progress" = some (JVal.n 100)
    ∧ (getField ((lookupStore (run_reconstruction cfg env retries job_id
        st0).state.store job_id).getD []) "completed_at").isSome = true
    ∧ getField ((lookupStore (run_reconstruction cfg env retries job_id
        st0).state.store job_id).getD []) "metrics"
        = some (JVal.metricsV
            { qaDefaults with file_size_mb := env.qa.fileSizeMb }) := by
  obtain ⟨sam, mask, mvg, mvs, post, ex, qa⟩ := env
  simp only at hsam hmask hmvg hmvs hpost hexp hqa
  subst hsam hmask hmvg hmvs hpost
  unfold run_reconstruction
  cases hS : cfg.ENABLE_SAM_SEGMENTATION <;>
  simp_all [writeStatus, update_job_status, lookupStore_insertStore_self,
    statusOf, setFields, getField_setField_self, getField_setField_ne,
    compute_qa_metrics]

/-- C4, witness: the QA analysis raising on the demo run still ends in a
completed record with defaulted metrics. -/
theorem C4_metrics_failure_completed_witness :
    (∃ r, (run_reconstruction cfgDemo envQaFail 0 "J" queuedState).outcome
      = Except.ok r)
    ∧ statusOf ((lookupStore (run_reconstruction cfgDemo envQaFail 0 "J"
        queuedState).state.store "J").getD []) = "completed"
    ∧ getField ((lookupStore (run_reconstruction cfgDemo envQaFail 0 "J"
        queuedState).state.store "J").getD []) "progress" = some (JVal.n 100)
    ∧ (getField ((lookupStore (run_reconstruction cfgDemo envQaFail 0 "J"
        queuedState).state.store "J").getD []) "completed_at").isSome = true
    ∧ getField ((lookupStore (run_reconstruction cfgDemo envQaFail 0 "J"
        queuedState).state.store "J").getD []) "metrics"
        = some (JVal.metricsV
            { qaDefaults with file_size_mb := envQaFail.qa.fileSizeMb }) :=
  C4_metrics_failure_completed cfgDemo envQaFail 0 "J" queuedState rfl rfl rfl
    rfl rfl rfl rfl

/-- C6: for a run that ends in `completed`, the sequence of progress values
written by the executor is non-decreasing, starts with a `processing` write
at progress 0, ends with the `completed` write at exactly 100, the record's
`created_at` is preserved, and the terminal `completed_at` is at or after
`created_at`. -/
theorem C6_progress_monotone (cfg : Settings) (env : PipelineEnv) (retries : Nat)
    (job_id : String) (st0 : SysState) (rec0 : Record) (t0 : Nat) (r : Record)
    (hrec : lookupStore st0.store job_id = some rec0)
    (hcr : getField rec0 "created_at" = some (JVal.t t0))
    (hclk : t0 ≤ st0.clock)
    (hok : (run_reconstruction cfg env retries job_id st0).outcome = Except.ok r) :
    List.Chain' (fun a b => a ≤ b)
      ((run_reconstruction cfg env retries job_id st0).trace.map Prod.snd)
    ∧ (run_reconstruction cfg env retries job_id st0).trace.head?
        = some ("processing", 0)
    ∧ (run_reconstruction cfg env retries job_id st0).trace.getLast?
        = some ("completed", 100)
    ∧ statusOf ((lookupStore (run_reconstruction cfg env retries job_id
        st0).state.store job_id).getD []) = "completed"
    ∧ getField ((lookupStore (run_reconstruction cfg env retries job_id
        st0).state.store job_id).getD []) "created_at" = some (JVal.t t0)
    ∧ (∃ t, getField ((lookupStore (run_reconstruction cfg env retries job_id
        st0).state.store job_id).getD []) "completed_at" = some (JVal.t t)
        ∧ t0 ≤ t) := by
  obtain ⟨sam, mask, mvg, mvs, post, ex, qa⟩ := env
  unfold run_reconstruction at hok ⊢
  cases hS : cfg.ENABLE_SAM_SEGMENTATION <;> rw [hS] at hok <;>
  cases sam <;> cases mask <;> cases mvg <;> cases mvs <;> cases post <;>
  cases he : export_glb ex <;> rw [he] at hok <;>
  simp_all [writeStatus, failJob, update_job_status, lookupStore_insertStore_self,
    statusOf, setFields, getField_setField_self, getField_setField_ne, hrec] <;>
  omega

/-- C6, witness: the all-success demo run on the queued job `J`. -/
theorem C6_progress_monotone_witness :
    List.Chain' (fun a b => a ≤ b)
      ((run_reconstruction cfgDemo envAllOk 0 "J" queuedState).trace.map Prod.snd)
    ∧ (run_reconstruction cfgDemo envAllOk 0 "J" queuedState).trace.head?
        = some ("processing", 0)
    ∧ (run_reconstruction cfgDemo envAllOk 0 "J" queuedState).trace.getLast?
        = some ("completed", 100)
    ∧ statusOf ((lookupStore (run_reconstruction cfgDemo envAllOk 0 "J"
        queuedState).state.store "J").getD []) = "completed"
    ∧ getField ((lookupStore (run_reconstruction cfgDemo envAllOk 0 "J"
        queuedState).state.store "J").getD []) "created_at" = some (JVal.t 0)
    ∧ (∃ t, getField ((lookupStore (run_reconstruction cfgDemo envAllOk 0 "J"
        queuedState).state.store "J").getD []) "completed_at" = some (JVal.t t)
        ∧ 0 ≤ t) :=
  C6_progress_monotone cfgDemo envAllOk 0 "J" queuedState queuedRec 0
    [("job_id", JVal.s "J"), ("status", JVal.s "completed"),
     ("progress", JVal.n 100),
     ("metrics", JVal.metricsV
       { file_size_mb := 5, triangle_count := 60000, vertex_count := 30000,
         texture_size := none, bounding_box_present := true,
         estimated_quality := "high" })]
    rfl rfl (by decide) rfl

/-- C7: when the GLB `mesh.export` raises, `export_glb` catches it, writes a
`.gltf` fallback instead and returns normally; the run still ends
`completed`, no `.glb` artifact exists for the job, and a subsequent
artifact fetch for the completed job returns the 404 data-loss error. -/
theorem C7_gltf_fallback_data_loss (cfg : Settings) (env : PipelineEnv)
    (retries : Nat) (job_id : String) (st0 : SysState)
    (hsam : env.samResult = none) (hmask : env.maskGenResult = none)
    (hmvg : env.openmvgResult = none) (hmvs : env.openmvsResult = none)
    (hpost : env.postprocResult = none)
    (hmesh : env.exportEnv.meshFound = true)
    (hload : env.exportEnv.loadFailure = none)
    (hglb : env.exportEnv.glbExportFails = true)
    (hgltf : env.exportEnv.gltfExportFails = false)
    (hart : job_id ∉ st0.artifacts) :
    export_glb env.exportEnv = Except.ok (false, true)
    ∧ (∃ r, (run_reconstruction cfg env retries job_id st0).outcome = Except.ok r)
    ∧ statusOf ((lookupStore (run_reconstruction cfg env retries job_id
        st0).state.store job_id).getD []) = "completed"
    ∧ job_id ∉ (run_reconstruction cfg env retries job_id st0).state.artifacts
    ∧ job_id ∈ (run_reconstruction cfg env retries job_id st0).state.gltfArtifacts
    ∧ get_artifact true job_id (run_reconstruction cfg env retries job_id st0).state
        = ApiResult.err 404 "Artifact file not found" := by
  obtain ⟨sam, mask, mvg, mvs, post, ex, qa⟩ := env
  obtain ⟨mf, lf, ge, gf⟩ := ex
  simp only at hsam hmask hmvg hmvs hpost hmesh hload hglb hgltf
  subst hsam hmask hmvg hmvs hpost hmesh hload hglb hgltf
  have he : export_glb ⟨true, none, true, false⟩ = Except.ok (false, true) := rfl
  refine ⟨he, ?_⟩
  unfold run_reconstruction
  cases hS : cfg.ENABLE_SAM_SEGMENTATION <;>
  simp_all [writeStatus, update_job_status, lookupStore_insertStore_self,
    statusOf, setFields, getField_setField_self, getField_setField_ne,
    compute_qa_metrics, get_artifact, hart]

/-- C7, witness: the demo run with a failing GLB export completes, leaves no
`.glb` artifact, and the artifact fetch reports the 404 data-loss error. -/
theorem C7_gltf_fallback_data_loss_witness :
    export_glb envGlbFail.exportEnv = Except.ok (false, true)
    ∧ (∃ r, (run_reconstruction cfgDemo envGlbFail 0 "J" queuedState).outcome
        = Except.ok r)
    ∧ statusOf ((lookupStore (run_reconstruction cfgDemo envGlbFail 0 "J"
        queuedState).state.store "J").getD []) = "completed"
    ∧ "J" ∉ (run_reconstruction cfgDemo envGlbFail 0 "J" queuedState).state.artifacts
    ∧ "J" ∈ (run_reconstruction cfgDemo envGlbFail 0 "J"
        queuedState).state.gltfArtifacts
    ∧ get_artifact true "J" (run_reconstruction cfgDemo envGlbFail 0 "J"
        queuedState).state = ApiResult.err 404 "Artifact file not found" :=
  C7_gltf_fallback_data_loss cfgDemo envGlbFail 0 "J" queuedState rfl rfl rfl
    rfl rfl rfl rfl rfl rfl (by decide)

end Atlas
